import Mathlib

/-!
# JerseyKraft backend: shallow embedding and verification

This file embeds the request-validation-and-persistence layer of the
JerseyKraft FastAPI backend (`main.py`, `schemas.py`) in Lean 4 and proves
or refutes the specification's testable properties.

Modelling conventions:
* Python strings are Lean `String`; Python string helpers (`strip`, `upper`,
  `split`) are re-implemented over the underlying `List Char`.
* Monetary values (`float` in the source) are modelled as `ℚ`; quantities
  (`int`) as `ℤ`.  `round(x, 2)` is Python's round-half-to-even.
* The MongoDB accessor (`database.py`, not part of the sources here) is
  modelled from the spec where noted; collections are association lists
  from identifier strings to documents, in insertion order.
* Fallible store operations are parametrised by a `storeOk : Bool` flag:
  `false` means the underlying write raises, which each endpoint's
  `except` clause then converts to an HTTP status.
-/

set_option autoImplicit false

namespace JerseyKraft

/-! ## Python-style string primitives -/

/-- Split a character list on a separator character (Python `str.split(sep)`
semantics: separators delimit fields, so `n` separators give `n+1` fields). -/
def splitOnCharAux (sep : Char) : List Char → List Char → List (List Char)
  | [], acc => [acc.reverse]
  | c :: cs, acc =>
    if c = sep then acc.reverse :: splitOnCharAux sep cs []
    else splitOnCharAux sep cs (c :: acc)

def splitOnChar (sep : Char) (cs : List Char) : List (List Char) :=
  splitOnCharAux sep cs []

/-- Python `str.split(sep)` on strings. -/
def pySplit (sep : Char) (s : String) : List String :=
  (splitOnChar sep s.data).map String.mk

/-- Python `str.strip()`: drop leading and trailing whitespace. -/
def pyStrip (s : String) : String :=
  String.mk ((s.data.dropWhile Char.isWhitespace).reverse.dropWhile Char.isWhitespace).reverse

/-- Python `str.upper()` (ASCII case mapping suffices for the data here). -/
def pyUpper (s : String) : String :=
  String.mk (s.data.map Char.toUpper)

/-- Hex digit as accepted by `bytes.fromhex` / BSON `ObjectId`. -/
def isHexChar (c : Char) : Bool :=
  c.isDigit || ('a' ≤ c && c ≤ 'f') || ('A' ≤ c && c ≤ 'F')

/-- `bson.ObjectId.is_valid` on a string: exactly 24 hex characters
(12 bytes).  Store-assigned identifiers are canonical lowercase hex. -/
def isValidObjectId (s : String) : Bool :=
  s.data.length == 24 && s.data.all isHexChar

/-- One lowercase hex digit. -/
def hexDigit (n : Nat) : Char :=
  if n < 10 then Char.ofNat (48 + n) else Char.ofNat (87 + n)

/-- A 24-character lowercase hex identifier derived from a counter: the
model of the store-assigned opaque `ObjectId` for the `n`-th insertion. -/
def genOid (n : Nat) : String :=
  String.mk ((List.range 24).map (fun i => hexDigit (n / 16 ^ (23 - i) % 16)))

/-! ## Pricing resolver (`checkout`, `main.py` lines 126–128)

`db["pricingtier"].find_one({"min_quantity": {"$lte": q}}, sort=[("min_quantity", -1)])`
returns a stored tier document with the greatest `min_quantity` among those
with `min_quantity ≤ q`, or `None` when no document qualifies.  Ties are
broken by store-native order (here: the earliest qualifying document). -/

/-- A stored `pricingtier` document (fields of `PricingTier` in
`schemas.py`; `features` is irrelevant to pricing and omitted from the
resolver's view of the document). -/
structure Tier where
  name : String
  base_price : ℚ
  min_quantity : ℤ
  deriving DecidableEq, Repr

/-- The Mongo `find_one` with descending `min_quantity` sort: the
qualifying tier with maximal `min_quantity`, earliest-first on ties. -/
def findTier : List Tier → ℤ → Option Tier
  | [], _ => none
  | t :: ts, q =>
    if t.min_quantity ≤ q then
      match findTier ts q with
      | none => some t
      | some b => if t.min_quantity < b.min_quantity then some b else some t
    else findTier ts q

/-- `float(tier_doc.get("base_price", 999.0)) if tier_doc else 999.0`. -/
def resolvedBase (ts : List Tier) (q : ℤ) : ℚ :=
  match findTier ts q with
  | some t => t.base_price
  | none => 999

/-- `tier_doc.get("name") if tier_doc else "Starter"`. -/
def resolvedTierName (ts : List Tier) (q : ℤ) : String :=
  match findTier ts q with
  | some t => t.name
  | none => "Starter"

/-! ## Python `round(x, 2)` on exact rationals -/

/-- Round-half-to-even to an integer (Python's `round` policy). -/
def roundHalfEven (x : ℚ) : ℤ :=
  let f := ⌊x⌋
  let r := x - f
  if r < 1 / 2 then f
  else if 1 / 2 < r then f + 1
  else if f % 2 = 0 then f else f + 1

/-- `round(x, 2)`. -/
def pyRound2 (x : ℚ) : ℚ :=
  (roundHalfEven (x * 100) : ℚ) / 100

/-! ## UTF-8 decoding (`content.decode("utf-8")`, `main.py` line 74)

Strict UTF-8 as Python's `bytes.decode("utf-8")`: continuation bytes are
`0x80–0xBF`, overlong encodings, surrogates (`U+D800–U+DFFF`) and code
points above `U+10FFFF` are rejected.  Fuel-indexed recursion on the byte
list; the wrapper supplies enough fuel for the whole input. -/

def isCont (b : Nat) : Bool := 0x80 ≤ b && b < 0xC0

def utf8DecodeAux : Nat → List Nat → Option (List Char)
  | 0, _ => none
  | _ + 1, [] => some []
  | fuel + 1, b :: bs =>
    if b < 0x80 then
      (utf8DecodeAux fuel bs).map (fun cs => Char.ofNat b :: cs)
    else if b < 0xC2 then
      none
    else if b < 0xE0 then
      match bs with
      | b1 :: bs' =>
        if isCont b1 then
          (utf8DecodeAux fuel bs').map
            (fun cs => Char.ofNat ((b - 0xC0) * 0x40 + (b1 - 0x80)) :: cs)
        else none
      | [] => none
    else if b < 0xF0 then
      match bs with
      | b1 :: b2 :: bs' =>
        if isCont b1 && isCont b2 then
          let cp := (b - 0xE0) * 0x1000 + (b1 - 0x80) * 0x40 + (b2 - 0x80)
          if 0x800 ≤ cp && ¬ (0xD800 ≤ cp && cp ≤ 0xDFFF) then
            (utf8DecodeAux fuel bs').map (fun cs => Char.ofNat cp :: cs)
          else none
        else none
      | _ => none
    else if b < 0xF5 then
      match bs with
      | b1 :: b2 :: b3 :: bs' =>
        if isCont b1 && isCont b2 && isCont b3 then
          let cp := (b - 0xF0) * 0x40000 + (b1 - 0x80) * 0x1000 +
            (b2 - 0x80) * 0x40 + (b3 - 0x80)
          if 0x10000 ≤ cp && cp ≤ 0x10FFFF then
            (utf8DecodeAux fuel bs').map (fun cs => Char.ofNat cp :: cs)
          else none
        else none
      | _ => none
    else none

/-- Decode a byte sequence as UTF-8, `none` on invalid input. -/
def utf8Decode (bs : List Nat) : Option String :=
  (utf8DecodeAux (bs.length + 1) bs).map String.mk

/-- The UTF-8 bytes of an ASCII string, for concrete test inputs. -/
def asciiBytes (s : String) : List Nat :=
  s.data.map Char.toNat

/-! ## Schema models (`schemas.py`)

Pydantic validation is modelled by smart constructors returning `Except`:
`Except.error` is a raised `ValidationError`. -/

/-- `JerseyTemplate.sport` (`Literal[...]` enum). -/
inductive Sport where
  | cricket | football | basketball | kabaddi | hockey | badminton
  deriving DecidableEq, Repr

def sportToString : Sport → String
  | .cricket => "cricket"
  | .football => "football"
  | .basketball => "basketball"
  | .kabaddi => "kabaddi"
  | .hockey => "hockey"
  | .badminton => "badminton"

def sportOfString : String → Option Sport
  | "cricket" => some .cricket
  | "football" => some .football
  | "basketball" => some .basketball
  | "kabaddi" => some .kabaddi
  | "hockey" => some .hockey
  | "badminton" => some .badminton
  | _ => none

/-- `JerseyTemplate` (validated instance; defaults per `schemas.py`). -/
structure JerseyTemplate where
  sport : Sport
  name : String
  colors : List String
  preview_url : Option String
  svg : Option String
  is_public : Bool
  deriving DecidableEq, Repr

/-- `TeamRosterEntry` (validated: `size` is one of the six literals). -/
structure TeamRosterEntry where
  name : String
  number : String
  size : String
  deriving DecidableEq, Repr

def validSizes : List String := ["XS", "S", "M", "L", "XL", "XXL"]

/-- Pydantic validation of `TeamRosterEntry`: the `size` literal. -/
def mkRosterEntry (name number size : String) : Except String TeamRosterEntry :=
  if size ∈ validSizes then .ok ⟨name, number, size⟩
  else .error "ValidationError: size"

/-- `Team` (logo fields default to `None` and are never set by the
roster-import endpoint; they are omitted). -/
structure Team where
  team_name : String
  sport : String
  roster : List TeamRosterEntry
  deriving DecidableEq, Repr

/-- `JerseyDesign`: all fields default and pass validation for any
structured payload; the free-form `text_elements` / `logo_elements`
layers are unvalidated pass-through carried as-is. -/
structure JerseyDesign where
  front_color : String := "#0A66C2"
  back_color : String := "#0A66C2"
  accents : List String := ["#FF6F00"]
  deriving DecidableEq, Repr

/-- `JerseyOrder` (validated instance). `status` and `payment_status`
default to `"Confirmed"` / `"pending"` at validation time, but MongoDB
updates bypass the schema, so the stored field is a plain string. -/
structure JerseyOrder where
  customer_name : String
  customer_email : String
  customer_phone : String
  shipping_address : String
  team_id : Option String
  template_id : Option String
  design : JerseyDesign
  quantity : ℤ
  pricing_tier : Option String
  amount : ℚ
  payment_status : String := "pending"
  status : String := "Confirmed"
  deriving DecidableEq, Repr

/-- `PaymentIntent` (validated instance). -/
structure PaymentIntent where
  order_id : Option String
  amount : ℚ
  currency : String := "INR"
  method : String
  status : String := "created"
  deriving DecidableEq, Repr

def validMethods : List String := ["upi", "card", "netbanking"]

/-- Pydantic validation of `JerseyOrder`: `quantity: int = Field(1, ge=1)`
and `amount: float = Field(..., ge=0)` (the two bound constraints). -/
def mkJerseyOrder (cn ce cp sa : String) (tid pid : Option String)
    (design : JerseyDesign) (quantity : ℤ) (tier : Option String)
    (amount : ℚ) : Except String JerseyOrder :=
  if quantity < 1 then .error "ValidationError: quantity ge 1"
  else if amount < 0 then .error "ValidationError: amount ge 0"
  else .ok ⟨cn, ce, cp, sa, tid, pid, design, quantity, tier, amount, "pending", "Confirmed"⟩

/-- Pydantic validation of `PaymentIntent`: `amount ge 0`, `method`
literal. -/
def mkPaymentIntent (oid : Option String) (amount : ℚ) (method : String) :
    Except String PaymentIntent :=
  if amount < 0 then .error "ValidationError: amount ge 0"
  else if method ∈ validMethods then .ok ⟨oid, amount, "INR", method, "created"⟩
  else .error "ValidationError: method"

/-! ## `POST /api/checkout` (`main.py` lines 111–150)

`CheckoutRequest.quantity` is a bare `int` with no bound, so any integer
passes request validation and reaches the handler body.  Everything in the
body runs inside `try: ... except Exception: raise HTTPException(500)`. -/

/-- `CheckoutRequest`: request-body validation only checks types, so a
validated request is any record of this shape. -/
structure CheckoutRequest where
  customer_name : String
  customer_email : String
  customer_phone : String
  shipping_address : String
  team_id : Option String
  template_id : Option String
  design : JerseyDesign
  quantity : ℤ
  method : String
  deriving DecidableEq, Repr

/-- Observable outcome of `POST /api/checkout`: HTTP status, the `amount`
field of a successful response, and what was persisted. -/
structure CheckoutResult where
  status : Nat
  amount : Option ℚ
  order : Option JerseyOrder
  payment : Option PaymentIntent
  deriving DecidableEq, Repr

/-- The `checkout` handler.  `storeOk = false` models the two
`create_document` calls raising a storage error, which the surrounding
`except Exception` turns into a 500.  `newOid` is the opaque identifier
the store assigns to the order on a successful insert (it becomes the
payment intent's `order_id`). -/
def checkoutWith (tiers : List Tier) (req : CheckoutRequest) (storeOk : Bool)
    (newOid : String) : CheckoutResult :=
  let base_price := resolvedBase tiers req.quantity
  let amount := pyRound2 (base_price * req.quantity)
  match mkJerseyOrder req.customer_name req.customer_email req.customer_phone
      req.shipping_address req.team_id req.template_id req.design
      req.quantity (some (resolvedTierName tiers req.quantity)) amount with
  | .error _ => ⟨500, none, none, none⟩
  | .ok order =>
    if storeOk then
      match mkPaymentIntent (some newOid) amount req.method with
      | .error _ => ⟨500, none, some order, none⟩
      | .ok pay => ⟨200, some amount, some order, some pay⟩
    else ⟨500, none, none, none⟩

/-- `checkout` with the first store-assigned identifier (the concrete id
value is irrelevant to every observable proved below). -/
def checkout (tiers : List Tier) (req : CheckoutRequest) (storeOk : Bool) :
    CheckoutResult :=
  checkoutWith tiers req storeOk (genOid 0)

/-! ## Order lookup and status update (`main.py` lines 153–175)

The `jerseyorder` collection is an association list from identifier to a
stored document; only the `status` field is ever rewritten in place, so
the stored document is modelled as the validated order record (whose
`status` is a plain string, since `update_one` bypasses the schema). -/

/-- Association-list lookup in a collection, first match. -/
def findDoc {α : Type} : List (String × α) → String → Option α
  | [], _ => none
  | (k, d) :: rest, oid => if k = oid then some d else findDoc rest oid

/-- Outcome of `GET /api/orders/{order_id}`: status, whether any database
query was issued, and the returned document. -/
structure GetOrderResult where
  status : Nat
  dbAccessed : Bool
  body : Option JerseyOrder
  deriving DecidableEq, Repr

/-- The `get_order` handler: the `ObjectId.is_valid` guard raises 400
before `find_one` runs; a well-formed but absent id gives 404. -/
def getOrder (store : List (String × JerseyOrder)) (order_id : String) :
    GetOrderResult :=
  if ¬ isValidObjectId order_id then ⟨400, false, none⟩
  else
    match findDoc store order_id with
    | none => ⟨404, true, none⟩
    | some d => ⟨200, true, some d⟩

/-- Outcome of `POST /api/orders/{order_id}/status`: status code and the
`{ok: true}` body flag. -/
structure UpdateStatusResult where
  status : Nat
  ok : Bool
  deriving DecidableEq, Repr

/-- `update_one({"_id": oid}, {"$set": {"status": s}})`: rewrite the first
matching document's `status`; matching zero documents is not an error. -/
def setStatus : List (String × JerseyOrder) → String → String → List (String × JerseyOrder)
  | [], _, _ => []
  | (k, d) :: rest, oid, s =>
    if k = oid then (k, { d with status := s }) :: rest
    else (k, d) :: setStatus rest oid s

/-- The `update_status` handler: 400 on a malformed id, otherwise the
unconditional overwrite followed by `{ok: True}`. -/
def updateStatus (store : List (String × JerseyOrder)) (order_id s : String) :
    List (String × JerseyOrder) × UpdateStatusResult :=
  if ¬ isValidObjectId order_id then (store, ⟨400, false⟩)
  else (setStatus store order_id s, ⟨200, true⟩)

/-! ## Template catalog (`main.py` lines 40–55)

JSON documents as sent over the wire: association lists from field name
to a JSON value.  The persistence accessor (`database.py`) is not among
the sources; it is modelled from the spec where marked. -/

/-- A JSON field value as it occurs in template documents. -/
inductive Val where
  | vStr (s : String)
  | vBool (b : Bool)
  | vNull
  | vList (ss : List String)
  deriving DecidableEq, Repr

/-- A JSON document: ordered field/value pairs. -/
abbrev Doc : Type := List (String × Val)

def optVal : Option String → Val
  | some s => .vStr s
  | none => .vNull

/-- Serialisation of a `JerseyTemplate` (pydantic `model_dump` /
FastAPI response serialisation). -/
def serializeTemplate (t : JerseyTemplate) : Doc :=
  [("sport", .vStr (sportToString t.sport)),
   ("name", .vStr t.name),
   ("colors", .vList t.colors),
   ("preview_url", optVal t.preview_url),
   ("svg", optVal t.svg),
   ("is_public", .vBool t.is_public)]

/-- Pydantic re-validation `JerseyTemplate(**fields)`: required `sport`
(enum) and `name`; defaults for the rest; `none` is a raised
`ValidationError`.  Unknown extra keys are ignored (pydantic default). -/
def parseTemplate (d : Doc) : Option JerseyTemplate := do
  let sport ← match findDoc d "sport" with
    | some (.vStr s) => sportOfString s
    | _ => none
  let name ← match findDoc d "name" with
    | some (.vStr s) => some s
    | _ => none
  let colors ← match findDoc d "colors" with
    | none => some ["#0A66C2", "#FF6F00"]
    | some (.vList cs) => some cs
    | _ => none
  let preview ← match findDoc d "preview_url" with
    | none => some none
    | some .vNull => some none
    | some (.vStr s) => some (some s)
    | _ => none
  let svg ← match findDoc d "svg" with
    | none => some none
    | some .vNull => some none
    | some (.vStr s) => some (some s)
    | _ => none
  let is_public ← match findDoc d "is_public" with
    | none => some true
    | some (.vBool b) => some b
    | _ => none
  pure ⟨sport, name, colors, preview, svg, is_public⟩

/-- Modelled from the spec: `create_document(collection, entity)` from
`database.py` (not among the sources) serialises the entity, inserts it,
and returns a newly assigned opaque identifier as a string.  The
collection is an insertion-ordered association list and the fresh
identifier is derived from the insertion counter. -/
def createDocument (store : List (String × Doc)) (d : Doc) :
    List (String × Doc) × String :=
  (store ++ [(genOid store.length, d)], genOid store.length)

/-- Modelled from the spec: `get_documents(collection)` from
`database.py` (not among the sources) returns every stored record; each
record carries its internal `_id` field, which the callers in `main.py`
strip or rename themselves. -/
def getDocuments (store : List (String × Doc)) : List Doc :=
  store.map (fun kd => ("_id", Val.vStr kd.1) :: kd.2)

/-- `{k: v for k, v in d.items() if k != "_id"}` (`main.py` line 45). -/
def stripUnderscoreId (d : Doc) : Doc :=
  d.filter (fun kv => kv.1 ≠ "_id")

/-- The body of `list_templates`: re-validate each stored document with
`_id` removed and serialise the models back out; any validation failure
is caught and surfaces as a 500. -/
def listTemplatesAux : List Doc → Except String (List Doc)
  | [] => .ok []
  | d :: rest =>
    match parseTemplate (stripUnderscoreId d) with
    | none => .error "ValidationError"
    | some t =>
      match listTemplatesAux rest with
      | .error e => .error e
      | .ok ds => .ok (serializeTemplate t :: ds)

/-- `GET /api/templates`: the serialised response records (an
`Except.error` is the handler's 500 path). -/
def listTemplates (store : List (String × Doc)) : Except String (List Doc) :=
  listTemplatesAux (getDocuments store)

/-- `POST /api/templates`: persist the validated template, respond with
`{"id": _id}`. -/
def createTemplate (store : List (String × Doc)) (t : JerseyTemplate) :
    List (String × Doc) × String :=
  createDocument store (serializeTemplate t)

/-- `POST /api/templates` when the store write raises: the handler's
`except Exception` returns a 500 (the success path returns 200). -/
def createTemplateStatus (storeOk : Bool) : Nat :=
  if storeOk then 200 else 500

/-! ## CSV roster import (`main.py` lines 59–89)

`csv.DictReader` over the decoded text.  Line terminators are modelled as
`'\n'`; `csv.reader` turns a completely empty line into the empty record
`[]`, which `DictReader` skips before constructing a row dict.  A row dict
binds every header name: positional fields where present, the `restval`
`None` where the row is shorter than the header.  The whole handler body —
decoding, row parsing, entry validation, *and* the `create_document`
persistence call — runs inside one `try: ... except Exception: raise
HTTPException(400, "Invalid CSV: ...")`. -/

/-- `csv.reader` on one line: the empty line is the empty record, any
other line splits on commas (the inputs used here contain no quoting). -/
def csvFields (line : String) : List String :=
  if line = "" then [] else pySplit ',' line

/-- `DictReader` row access `row.get(k, default)` seen as a three-way
outcome: `none` = header has no such column (so `.get` falls back to its
default), `some none` = column exists but the row is too short (bound to
`restval None`), `some (some v)` = the field's text.  Later duplicate
header bindings win, as in `dict(zip(...))`. -/
def rowGet (hs fs : List String) (k : String) : Option (Option String) :=
  findDoc (hs.zip (fs.map some ++ List.replicate hs.length none)).reverse k

/-- Build one `TeamRosterEntry` from a row (`main.py` lines 80–84):
`name=row.get("name", "").strip()`,
`number=str(row.get("number", "")).strip()`,
`size=row.get("size", "M").strip().upper() or "M"`.
A `None` field value makes `.strip()` raise (`str(None)` is `"None"` for
the `number` field); the raised exception aborts the whole import. -/
def buildEntry (hs fs : List String) : Except String TeamRosterEntry := do
  let name ← match rowGet hs fs "name" with
    | none => Except.ok ""
    | some (some v) => Except.ok v
    | some none => Except.error "AttributeError: NoneType has no strip"
  let number ← match rowGet hs fs "number" with
    | none => Except.ok ""
    | some (some v) => Except.ok v
    | some none => Except.ok "None"
  let size0 ← match rowGet hs fs "size" with
    | none => Except.ok "M"
    | some (some v) => Except.ok v
    | some none => Except.error "AttributeError: NoneType has no strip"
  let u := pyUpper (pyStrip size0)
  mkRosterEntry (pyStrip name) (pyStrip number) (if u = "" then "M" else u)

/-- The row loop (`main.py` lines 77–84).  The first guard is
`DictReader`'s blank-record skip; the second is the handler's own
`if not row: continue` (an empty row dict — unreachable after the first
guard whenever the header is non-empty). -/
def buildRows (hs : List String) : List (List String) → Except String (List TeamRosterEntry)
  | [] => .ok []
  | fs :: rest =>
    if fs = [] then buildRows hs rest
    else if hs = [] ∧ fs = [] then buildRows hs rest
    else
      match buildEntry hs fs with
      | .error e => .error e
      | .ok e =>
        match buildRows hs rest with
        | .error e2 => .error e2
        | .ok es => .ok (e :: es)

instance {ε α : Type} [DecidableEq ε] [DecidableEq α] : DecidableEq (Except ε α) :=
  fun a b =>
    match a, b with
    | .error e1, .error e2 =>
      if h : e1 = e2 then .isTrue (by rw [h]) else .isFalse (by simp [h])
    | .ok v1, .ok v2 =>
      if h : v1 = v2 then .isTrue (by rw [h]) else .isFalse (by simp [h])
    | .error _, .ok _ => .isFalse Except.noConfusion
    | .ok _, .error _ => .isFalse Except.noConfusion

/-- `csv.DictReader(io.StringIO(text))` consumed by the row loop: the
first line is the header, the rest are data rows. -/
def parseRoster (text : String) : Except String (List TeamRosterEntry) :=
  match pySplit '\n' text with
  | [] => .ok []
  | headerLine :: dataLines => buildRows (csvFields headerLine) (dataLines.map csvFields)

/-- Observable outcome of `POST /api/team/import`: HTTP status, the
persisted `Team` document, and the `count` field of the response. -/
structure ImportResult where
  status : Nat
  team : Option Team
  count : Option Nat
  deriving DecidableEq, Repr

/-- The `import_team` handler.  Note the 400 on `storeOk = false`: the
`create_document` call sits inside the same `try` as the CSV parsing, so
a storage failure is also reported as `400 "Invalid CSV: ..."`. -/
def importTeam (storeOk : Bool) (team_name sport : String) (content : List Nat) :
    ImportResult :=
  match utf8Decode content with
  | none => ⟨400, none, none⟩
  | some text =>
    match parseRoster text with
    | .error _ => ⟨400, none, none⟩
    | .ok roster =>
      if storeOk then ⟨200, some ⟨team_name, sport, roster⟩, some roster.length⟩
      else ⟨400, none, none⟩

/-! ## Concrete sample data (shared by several theorems below) -/

/-- The spec's example tier table: (Starter, 999, 1), (Pro, 899, 10),
(Elite, 799, 25). -/
def sampleTiers : List Tier :=
  [⟨"Starter", 999, 1⟩, ⟨"Pro", 899, 10⟩, ⟨"Elite", 799, 25⟩]

/-- A well-formed checkout request with quantity 15. -/
def sampleReq : CheckoutRequest :=
  ⟨"Asha", "asha@example.com", "9999999999", "12 MG Road", none, none, {}, 15, "upi"⟩

/-- A validated order as stored at checkout time. -/
def sampleOrder : JerseyOrder :=
  ⟨"Asha", "asha@example.com", "9999999999", "12 MG Road", none, none, {}, 1,
    some "Starter", 999, "pending", "Confirmed"⟩

/-- A well-formed 24-hex-character order identifier. -/
def sampleOid : String := "0123456789abcdef01234567"

/-! ## Lemmas: pricing resolver -/

theorem findTier_mem : ∀ (ts : List Tier) (q : ℤ) (t : Tier),
    findTier ts q = some t → t ∈ ts := by
  intro ts q
  induction ts with
  | nil => intro t h; simp [findTier] at h
  | cons a rest ih =>
    intro t h
    simp only [findTier] at h
    by_cases hle : a.min_quantity ≤ q
    · rw [if_pos hle] at h
      cases hr : findTier rest q with
      | none => rw [hr] at h; simp only [Option.some.injEq] at h; subst h; exact List.mem_cons_self a rest
      | some b =>
        rw [hr] at h
        dsimp only at h
        by_cases hlt : a.min_quantity < b.min_quantity
        · rw [if_pos hlt] at h
          simp only [Option.some.injEq] at h; subst h
          exact List.mem_cons_of_mem a (ih b hr)
        · rw [if_neg hlt] at h
          simp only [Option.some.injEq] at h; subst h
          exact List.mem_cons_self a rest
    · rw [if_neg hle] at h
      exact List.mem_cons_of_mem a (ih t h)

theorem findTier_le : ∀ (ts : List Tier) (q : ℤ) (t : Tier),
    findTier ts q = some t → t.min_quantity ≤ q := by
  intro ts q
  induction ts with
  | nil => intro t h; simp [findTier] at h
  | cons a rest ih =>
    intro t h
    simp only [findTier] at h
    by_cases hle : a.min_quantity ≤ q
    · rw [if_pos hle] at h
      cases hr : findTier rest q with
      | none => rw [hr] at h; simp only [Option.some.injEq] at h; subst h; exact hle
      | some b =>
        rw [hr] at h
        dsimp only at h
        by_cases hlt : a.min_quantity < b.min_quantity
        · rw [if_pos hlt] at h
          simp only [Option.some.injEq] at h; subst h
          exact ih b hr
        · rw [if_neg hlt] at h
          simp only [Option.some.injEq] at h; subst h
          exact hle
    · rw [if_neg hle] at h
      exact ih t h

theorem findTier_none : ∀ (ts : List Tier) (q : ℤ),
    findTier ts q = none → ∀ u ∈ ts, q < u.min_quantity := by
  intro ts q
  induction ts with
  | nil => intro _ u hu; cases hu
  | cons a rest ih =>
    intro h u hu
    simp only [findTier] at h
    by_cases hle : a.min_quantity ≤ q
    · rw [if_pos hle] at h
      cases hr : findTier rest q with
      | none => rw [hr] at h; cases h
      | some b =>
        rw [hr] at h
        dsimp only at h
        by_cases hlt : a.min_quantity < b.min_quantity
        · rw [if_pos hlt] at h; cases h
        · rw [if_neg hlt] at h; cases h
    · rw [if_neg hle] at h
      rcases List.mem_cons.mp hu with rfl | hu'
      · exact lt_of_not_le hle
      · exact ih h u hu'

theorem findTier_max : ∀ (ts : List Tier) (q : ℤ) (t : Tier),
    findTier ts q = some t →
      ∀ u ∈ ts, u.min_quantity ≤ q → u.min_quantity ≤ t.min_quantity := by
  intro ts q
  induction ts with
  | nil => intro t h; simp [findTier] at h
  | cons a rest ih =>
    intro t h u hu hule
    simp only [findTier] at h
    by_cases hle : a.min_quantity ≤ q
    · rw [if_pos hle] at h
      cases hr : findTier rest q with
      | none =>
        rw [hr] at h; simp only [Option.some.injEq] at h; subst h
        rcases List.mem_cons.mp hu with rfl | hu'
        · exact le_refl _
        · exact absurd hule (not_le.mpr (findTier_none rest q hr u hu'))
      | some b =>
        rw [hr] at h
        dsimp only at h
        by_cases hlt : a.min_quantity < b.min_quantity
        · rw [if_pos hlt] at h
          simp only [Option.some.injEq] at h; subst h
          rcases List.mem_cons.mp hu with rfl | hu'
          · exact le_of_lt hlt
          · exact ih b hr u hu' hule
        · rw [if_neg hlt] at h
          simp only [Option.some.injEq] at h; subst h
          rcases List.mem_cons.mp hu with rfl | hu'
          · exact le_refl _
          · exact le_trans (ih b hr u hu' hule) (not_lt.mp hlt)
    · rw [if_neg hle] at h
      rcases List.mem_cons.mp hu with rfl | hu'
      · exact absurd hule hle
      · exact ih t h u hu' hule

/-! ## Lemmas: rounding -/

theorem roundHalfEven_nonneg (x : ℚ) (hx : 0 ≤ x) : 0 ≤ roundHalfEven x := by
  unfold roundHalfEven
  have hf : (0 : ℤ) ≤ ⌊x⌋ := Int.le_floor.mpr (by exact_mod_cast hx)
  dsimp only
  split_ifs <;> omega

theorem pyRound2_nonneg (x : ℚ) (hx : 0 ≤ x) : 0 ≤ pyRound2 x := by
  unfold pyRound2
  have h : (0 : ℤ) ≤ roundHalfEven (x * 100) :=
    roundHalfEven_nonneg _ (by positivity)
  have h' : (0 : ℚ) ≤ (roundHalfEven (x * 100) : ℚ) := by exact_mod_cast h
  positivity

theorem resolvedBase_nonneg (ts : List Tier) (q : ℤ)
    (hbp : ∀ t ∈ ts, 0 ≤ t.base_price) : 0 ≤ resolvedBase ts q := by
  unfold resolvedBase
  cases h : findTier ts q with
  | none => norm_num
  | some t => exact hbp t (findTier_mem ts q t h)

/-! ## C1 -/

/-- C1: for every quantity `q`, the checkout pricing resolver selects the
stored tier with the maximum `min_quantity` among tiers with
`min_quantity ≤ q`; if no stored tier qualifies (in particular on an
empty tier table) it falls back to the tier name "Starter" with base
price 999. -/
theorem checkout_pricing_resolver_max_or_starter (ts : List Tier) (q : ℤ) :
    (∀ t, findTier ts q = some t →
      t ∈ ts ∧ t.min_quantity ≤ q ∧
        ∀ u ∈ ts, u.min_quantity ≤ q → u.min_quantity ≤ t.min_quantity) ∧
    (findTier ts q = none →
      (∀ u ∈ ts, ¬ u.min_quantity ≤ q) ∧
        resolvedTierName ts q = "Starter" ∧ resolvedBase ts q = 999) := by
  refine ⟨fun t h => ⟨findTier_mem ts q t h, findTier_le ts q t h, findTier_max ts q t h⟩,
    fun h => ⟨fun u hu => not_le.mpr (findTier_none ts q h u hu), ?_, ?_⟩⟩
  · simp [resolvedTierName, h]
  · simp [resolvedBase, h]

/-- Witness for C1: on the sample tier table, quantity 15 resolves to the
Pro tier (maximal qualifying threshold 10) and quantity 0 falls back to
Starter / 999. -/
theorem checkout_pricing_resolver_max_or_starter_witness :
    ((⟨"Pro", 899, 10⟩ : Tier) ∈ sampleTiers ∧ (10 : ℤ) ≤ 15 ∧
      (∀ u ∈ sampleTiers, u.min_quantity ≤ 15 → u.min_quantity ≤ (10 : ℤ))) ∧
    ((∀ u ∈ sampleTiers, ¬ u.min_quantity ≤ (0 : ℤ)) ∧
      resolvedTierName sampleTiers 0 = "Starter" ∧ resolvedBase sampleTiers 0 = 999) := by
  constructor
  · have h := (checkout_pricing_resolver_max_or_starter sampleTiers 15).1
      ⟨"Pro", 899, 10⟩ (by decide)
    exact ⟨h.1, h.2.1, h.2.2⟩
  · exact (checkout_pricing_resolver_max_or_starter sampleTiers 0).2 (by decide)

/-! ## C2 -/

/-- Helper: a checkout whose order and payment validations pass returns
200 with the rounded amount in the response, the persisted order, and the
resolved tier name in the persisted order. -/
theorem checkout_success (tiers : List Tier) (req : CheckoutRequest)
    (hq : 1 ≤ req.quantity) (hbp : ∀ t ∈ tiers, 0 ≤ t.base_price)
    (hm : req.method ∈ validMethods) :
    (checkout tiers req true).status = 200 ∧
    (checkout tiers req true).amount =
      some (pyRound2 (resolvedBase tiers req.quantity * req.quantity)) ∧
    (checkout tiers req true).order.map JerseyOrder.amount =
      some (pyRound2 (resolvedBase tiers req.quantity * req.quantity)) ∧
    (checkout tiers req true).order.map JerseyOrder.pricing_tier =
      some (some (resolvedTierName tiers req.quantity)) := by
  have hqq : (0 : ℚ) ≤ (req.quantity : ℚ) := by exact_mod_cast le_trans zero_le_one hq
  have hamt : 0 ≤ pyRound2 (resolvedBase tiers req.quantity * req.quantity) :=
    pyRound2_nonneg _ (mul_nonneg (resolvedBase_nonneg tiers req.quantity hbp) hqq)
  have hnot1 : ¬ req.quantity < 1 := not_lt.mpr hq
  have hnot0 : ¬ pyRound2 (resolvedBase tiers req.quantity * req.quantity) < 0 :=
    not_lt.mpr hamt
  simp only [checkout, checkoutWith, mkJerseyOrder, mkPaymentIntent]
  rw [if_neg hnot1, if_neg hnot0, if_neg hnot0, if_pos hm]
  exact ⟨rfl, rfl, rfl, rfl⟩

/-- Helper: `roundHalfEven` is the identity on integers. -/
theorem roundHalfEven_intCast (n : ℤ) : roundHalfEven (n : ℚ) = n := by
  simp only [roundHalfEven, Int.floor_intCast, sub_self]
  norm_num

/-- Helper: `round(x, 2)` of a value whose hundredfold is the integer
`n` is `n / 100`. -/
theorem pyRound2_of_int (x : ℚ) (n : ℤ) (h : x * 100 = (n : ℚ)) :
    pyRound2 x = (n : ℚ) / 100 := by
  unfold pyRound2
  rw [h, roundHalfEven_intCast]

/-- Helper: the resolved base price on the sample tier table at
quantity 15 is Pro's 899. -/
theorem resolvedBase_sample : resolvedBase sampleTiers 15 = 899 := by
  have h : findTier sampleTiers 15 = some ⟨"Pro", 899, 10⟩ := by decide
  simp [resolvedBase, h]

/-- Helper: the computed checkout amount on the spec's example. -/
theorem sample_amount : pyRound2 (resolvedBase sampleTiers 15 * ((15 : ℤ) : ℚ)) = 13485 := by
  rw [resolvedBase_sample]
  rw [pyRound2_of_int _ 1348500 (by norm_num)]
  norm_num

/-- C2: for every tier table with non-negative base prices and every
request with quantity ≥ 1 and a valid payment method, checkout succeeds
and both the response `amount` and the persisted order's `amount` equal
`round(base_price * quantity, 2)` for the resolved base price; on the
spec's example (tiers Starter/999/1, Pro/899/10, Elite/799/25 and
quantity 15) checkout resolves to tier Pro with amount 13485.00. -/
theorem checkout_amount_is_rounded_product (tiers : List Tier)
    (req : CheckoutRequest) (hq : 1 ≤ req.quantity)
    (hbp : ∀ t ∈ tiers, 0 ≤ t.base_price) (hm : req.method ∈ validMethods) :
    ((checkout tiers req true).status = 200 ∧
      (checkout tiers req true).amount =
        some (pyRound2 (resolvedBase tiers req.quantity * req.quantity)) ∧
      (checkout tiers req true).order.map JerseyOrder.amount =
        some (pyRound2 (resolvedBase tiers req.quantity * req.quantity))) ∧
    ((checkout sampleTiers sampleReq true).status = 200 ∧
      (checkout sampleTiers sampleReq true).amount = some 13485 ∧
      (checkout sampleTiers sampleReq true).order.map JerseyOrder.pricing_tier =
        some (some "Pro")) := by
  obtain ⟨h1, h2, h3, _⟩ := checkout_success tiers req hq hbp hm
  obtain ⟨g1, g2, g3, g4⟩ := checkout_success sampleTiers sampleReq
    (by decide) (by decide) (by decide)
  have hs : sampleReq.quantity = (15 : ℤ) := rfl
  have hamt : pyRound2 (resolvedBase sampleTiers sampleReq.quantity * sampleReq.quantity) =
      13485 := by rw [hs]; exact sample_amount
  have htier : resolvedTierName sampleTiers sampleReq.quantity = "Pro" := by
    rw [hs]; rfl
  refine ⟨⟨h1, h2, h3⟩, g1, ?_, ?_⟩
  · rw [g2, hamt]
  · rw [g4, htier]

/-- Witness for C2: the hypotheses hold at the sample tier table and
sample request, and checkout then returns status 200. -/
theorem checkout_amount_is_rounded_product_witness :
    (1 ≤ sampleReq.quantity ∧ (∀ t ∈ sampleTiers, 0 ≤ t.base_price) ∧
      sampleReq.method ∈ validMethods) ∧
    (checkout sampleTiers sampleReq true).status = 200 := by
  refine ⟨⟨by decide, by decide, by decide⟩, ?_⟩
  exact (checkout_amount_is_rounded_product sampleTiers sampleReq
    (by decide) (by decide) (by decide)).1.1

/-! ## C3 -/

/-- A concrete valid template payload. -/
def sampleTemplate : JerseyTemplate :=
  ⟨.cricket, "Classic", ["#0A66C2", "#FF6F00"], none, none, true⟩

/-- Helper: pydantic re-validation inverts serialisation once the
internal `_id` field is stripped. -/
theorem parseTemplate_strip_serialize (i : String) (t : JerseyTemplate) :
    parseTemplate (stripUnderscoreId (("_id", Val.vStr i) :: serializeTemplate t)) = some t := by
  obtain ⟨sp, n, cs, pu, sv, pb⟩ := t
  cases sp <;> cases pu <;> cases sv <;> rfl

/-- Helper: listing a collection with one more document appends that
document's re-serialisation. -/
theorem listTemplatesAux_snoc (d : Doc) (t : JerseyTemplate)
    (hd : parseTemplate (stripUnderscoreId d) = some t) :
    ∀ (l : List Doc) (ds : List Doc), listTemplatesAux l = .ok ds →
      listTemplatesAux (l ++ [d]) = .ok (ds ++ [serializeTemplate t]) := by
  intro l
  induction l with
  | nil =>
    intro ds h
    simp only [listTemplatesAux] at h
    cases h
    simp only [List.nil_append, listTemplatesAux, hd]
  | cons a l ih =>
    intro ds h
    simp only [listTemplatesAux] at h
    rw [List.cons_append]
    simp only [listTemplatesAux]
    cases hp : parseTemplate (stripUnderscoreId a) with
    | none =>
      rw [hp] at h
      exact Except.noConfusion h
    | some u =>
      rw [hp] at h
      dsimp only at h ⊢
      cases hl : listTemplatesAux l with
      | error e =>
        rw [hl] at h
        exact Except.noConfusion h
      | ok es =>
        rw [hl] at h
        dsimp only at h
        cases h
        rw [ih es hl]
        rfl

/-- C3 counterexample: create a template in an empty store, then list.
The created record round-trips with all six schema fields preserved, but
the listed record contains NO `id` field at all: the store identifier is
returned only by the POST response, not surfaced in the GET list. -/
theorem template_roundtrip_no_id_field_cex :
    listTemplates (createTemplate [] sampleTemplate).1 =
      .ok [serializeTemplate sampleTemplate] ∧
    findDoc (serializeTemplate sampleTemplate) "id" = none ∧
    (createTemplate [] sampleTemplate).2 = genOid 0 := by
  refine ⟨rfl, rfl, rfl⟩

/-- C3 (amended): creating a `JerseyTemplate` via POST and then listing
via GET yields the created record with all schema fields preserved, but
with no `id` (or `_id`) field in the listed record; the store identifier
is surfaced as `id` only in the POST response. -/
theorem template_roundtrip_preserves_fields (store : List (String × Doc))
    (t : JerseyTemplate) (ds : List Doc) (h : listTemplates store = .ok ds) :
    listTemplates (createTemplate store t).1 = .ok (ds ++ [serializeTemplate t]) ∧
    findDoc (serializeTemplate t) "id" = none ∧
    findDoc (serializeTemplate t) "_id" = none ∧
    (createTemplate store t).2 = genOid store.length := by
  refine ⟨?_, rfl, rfl, rfl⟩
  show listTemplatesAux (getDocuments (store ++ [(genOid store.length, serializeTemplate t)])) = _
  have hmap : getDocuments (store ++ [(genOid store.length, serializeTemplate t)]) =
      getDocuments store ++
        [("_id", Val.vStr (genOid store.length)) :: serializeTemplate t] := by
    simp [getDocuments]
  rw [hmap]
  exact listTemplatesAux_snoc _ t
    (parseTemplate_strip_serialize (genOid store.length) t) (getDocuments store) ds h

/-- Witness for C3 (amended): the empty store lists as the empty
catalog, and after creating the sample template the listing is exactly
that one record. -/
theorem template_roundtrip_preserves_fields_witness :
    listTemplates [] = .ok [] ∧
    listTemplates (createTemplate [] sampleTemplate).1 =
      .ok ([] ++ [serializeTemplate sampleTemplate]) := by
  refine ⟨rfl, ?_⟩
  exact (template_roundtrip_preserves_fields [] sampleTemplate [] rfl).1

/-! ## C4 -/

/-- C4: for every order id, `GET /api/orders/{order_id}` returns 400
without issuing any database query when the id is malformed, and a 404
when the id is well-formed but matches no stored order. -/
theorem get_order_invalid_id_and_not_found (store : List (String × JerseyOrder))
    (oid : String) :
    (isValidObjectId oid = false → getOrder store oid = ⟨400, false, none⟩) ∧
    (isValidObjectId oid = true → findDoc store oid = none →
      getOrder store oid = ⟨404, true, none⟩) := by
  constructor
  · intro h
    simp [getOrder, h]
  · intro h hf
    simp [getOrder, h, hf]

/-- Witness for C4: the malformed id "abc" yields 400 with no database
access on any store, and a well-formed absent id yields 404. -/
theorem get_order_invalid_id_and_not_found_witness :
    isValidObjectId "abc" = false ∧
    getOrder [] "abc" = ⟨400, false, none⟩ ∧
    isValidObjectId sampleOid = true ∧
    getOrder [] sampleOid = ⟨404, true, none⟩ := by
  refine ⟨by decide, ?_, by decide, ?_⟩
  · exact (get_order_invalid_id_and_not_found [] "abc").1 (by decide)
  · exact (get_order_invalid_id_and_not_found [] sampleOid).2 (by decide) rfl

/-! ## Lemmas: status update on the order store -/

theorem findDoc_setStatus (st : List (String × JerseyOrder)) (oid s : String) :
    findDoc (setStatus st oid s) oid =
      (findDoc st oid).map (fun d => { d with status := s }) := by
  induction st with
  | nil => rfl
  | cons kd rest ih =>
    obtain ⟨k, d⟩ := kd
    by_cases hk : k = oid
    · subst hk
      simp [setStatus, findDoc]
    · simp [setStatus, findDoc, hk, ih]

theorem setStatus_of_absent (st : List (String × JerseyOrder)) (oid s : String)
    (h : findDoc st oid = none) : setStatus st oid s = st := by
  induction st with
  | nil => rfl
  | cons kd rest ih =>
    obtain ⟨k, d⟩ := kd
    simp only [findDoc] at h
    by_cases hk : k = oid
    · rw [if_pos hk] at h; cases h
    · rw [if_neg hk] at h
      simp [setStatus, hk, ih h]

/-! ## C9 -/

/-- C9: the status-update endpoint accepts each of the four literal
status strings and is idempotently overwritable: on any existing order,
setting the same status twice returns `{ok: true}` both times and the
stored status after the second call equals the one after the first. -/
theorem update_status_accepts_and_idempotent (store : List (String × JerseyOrder))
    (oid s : String) (hv : isValidObjectId oid = true)
    (_hfour : s ∈ ["Confirmed", "In Production", "QC", "Shipped"])
    (_hex : (findDoc store oid).isSome = true) :
    (updateStatus store oid s).2 = ⟨200, true⟩ ∧
    (updateStatus (updateStatus store oid s).1 oid s).2 = ⟨200, true⟩ ∧
    (findDoc (updateStatus (updateStatus store oid s).1 oid s).1 oid).map
        JerseyOrder.status =
      (findDoc (updateStatus store oid s).1 oid).map JerseyOrder.status := by
  refine ⟨by simp [updateStatus, hv], by simp [updateStatus, hv], ?_⟩
  simp only [updateStatus, hv, not_true_eq_false, if_false, Bool.true_eq_false,
    ite_false]
  rw [findDoc_setStatus, findDoc_setStatus]
  cases findDoc store oid <;> rfl

/-- An order store holding one confirmed order under `sampleOid`. -/
def sampleOrderStore : List (String × JerseyOrder) := [(sampleOid, sampleOrder)]

/-- Witness for C9: updating the sample order's status to "Shipped"
satisfies all three hypotheses and returns `{ok: true}`. -/
theorem update_status_accepts_and_idempotent_witness :
    (isValidObjectId sampleOid = true ∧
      "Shipped" ∈ ["Confirmed", "In Production", "QC", "Shipped"] ∧
      (findDoc sampleOrderStore sampleOid).isSome = true) ∧
    (updateStatus sampleOrderStore sampleOid "Shipped").2 = ⟨200, true⟩ := by
  refine ⟨⟨by decide, by decide, by decide⟩, ?_⟩
  exact (update_status_accepts_and_idempotent sampleOrderStore sampleOid "Shipped"
    (by decide) (by decide) (by decide)).1

/-! ## C10 -/

/-- C10: for every well-formed order id the status-update endpoint
returns `{ok: true}` for every string status — including strings outside
the four order states, which then become the stored status — and when no
stored order matches the id it still returns `{ok: true}` (not 404) and
leaves the store unchanged. -/
theorem update_status_permissive (store : List (String × JerseyOrder))
    (oid s : String) (hv : isValidObjectId oid = true) :
    (updateStatus store oid s).2 = ⟨200, true⟩ ∧
    (findDoc store oid = none → (updateStatus store oid s).1 = store) ∧
    (∀ d, findDoc store oid = some d →
      (findDoc (updateStatus store oid s).1 oid).map JerseyOrder.status = some s) := by
  refine ⟨by simp [updateStatus, hv], ?_, ?_⟩
  · intro h
    simp [updateStatus, hv, setStatus_of_absent store oid s h]
  · intro d h
    simp only [updateStatus, hv, not_true_eq_false, if_false, Bool.true_eq_false,
      ite_false]
    rw [findDoc_setStatus, h]
    rfl

/-- Witness for C10: the out-of-enum status "Cancelled" is accepted and
stored on the sample order, and updating a well-formed absent id on the
empty store returns `{ok: true}` leaving the store empty. -/
theorem update_status_permissive_witness :
    "Cancelled" ∉ (["Confirmed", "In Production", "QC", "Shipped"] : List String) ∧
    (updateStatus sampleOrderStore sampleOid "Cancelled").2 = ⟨200, true⟩ ∧
    (findDoc (updateStatus sampleOrderStore sampleOid "Cancelled").1 sampleOid).map
      JerseyOrder.status = some "Cancelled" ∧
    (updateStatus [] sampleOid "Cancelled").1 = [] ∧
    (updateStatus [] sampleOid "Cancelled").2 = ⟨200, true⟩ := by
  have h1 := update_status_permissive sampleOrderStore sampleOid "Cancelled" (by decide)
  have h2 := update_status_permissive [] sampleOid "Cancelled" (by decide)
  exact ⟨by decide, h1.1, h1.2.2 sampleOrder (by decide), h2.2.1 rfl, h2.1⟩

/-! ## Lemmas: CSV row loop -/

theorem buildRows_length (hs : List String) :
    ∀ (rows : List (List String)) (roster : List TeamRosterEntry),
      buildRows hs rows = .ok roster →
      roster.length = (rows.filter (fun fs => fs ≠ [])).length := by
  intro rows
  induction rows with
  | nil =>
    intro roster h
    simp only [buildRows] at h
    cases h
    rfl
  | cons fs rest ih =>
    intro roster h
    simp only [buildRows] at h
    by_cases hfs : fs = []
    · rw [if_pos hfs] at h
      have hfilter : decide (fs ≠ []) = false := by simp [hfs]
      simp [List.filter, hfilter, ih roster h]
    · rw [if_neg hfs, if_neg (fun hand => hfs hand.2)] at h
      cases he : buildEntry hs fs with
      | error e =>
        rw [he] at h
        exact Except.noConfusion h
      | ok e =>
        rw [he] at h
        dsimp only at h
        cases hr : buildRows hs rest with
        | error e2 =>
          rw [hr] at h
          exact Except.noConfusion h
        | ok es =>
          rw [hr] at h
          dsimp only at h
          cases h
          have hfilter : decide (fs ≠ []) = true := by simp [hfs]
          simp [List.filter, hfilter, ih es hr]

theorem parseRoster_length (text : String) (roster : List TeamRosterEntry)
    (h : parseRoster text = .ok roster) :
    roster.length =
      (((pySplit '\n' text).tail.map csvFields).filter (fun fs => fs ≠ [])).length := by
  unfold parseRoster at h
  cases hsplit : pySplit '\n' text with
  | nil =>
    rw [hsplit] at h
    cases h
    rfl
  | cons hd tl =>
    rw [hsplit] at h
    dsimp only at h
    dsimp only [List.tail]
    exact buildRows_length (csvFields hd) (tl.map csvFields) roster h

/-- A data row whose three fields are all whitespace still yields an
entry: name and number strip to the empty string, size defaults to "M". -/
theorem buildEntry_ws (a b c : String) (ha : pyStrip a = "")
    (hb : pyStrip b = "") (hc : pyStrip c = "") :
    buildEntry ["name", "number", "size"] [a, b, c] = .ok ⟨"", "", "M"⟩ := by
  show mkRosterEntry (pyStrip a) (pyStrip b)
    (if pyUpper (pyStrip c) = "" then "M" else pyUpper (pyStrip c)) = .ok ⟨"", "", "M"⟩
  rw [ha, hb, hc]
  rfl

/-! ## C5 -/

/-- A roster upload whose only data row has nothing but whitespace in
each of its three fields. -/
def wsCsv : String := "name,number,size\n , , "

/-- C5 counterexample: in `wsCsv` the single data row has all-whitespace
fields, yet the import persists a team whose roster holds one entry
(empty name and number, size defaulted to "M") and reports count 1 —
the row is not skipped. -/
theorem import_ws_row_not_skipped_cex :
    (∀ f ∈ csvFields " , , ", pyStrip f = "") ∧
    importTeam true "T" "cricket" (asciiBytes wsCsv) =
      ⟨200, some ⟨"T", "cricket", [⟨"", "", "M"⟩]⟩, some 1⟩ := by
  exact ⟨by decide, by decide⟩

/-- C5 (amended): the import loop skips exactly the rows that parse to an
empty record (blank lines): the persisted roster has one entry per
non-blank data row.  A row whose fields are all whitespace is NOT
skipped; it yields the entry `("", "", "M")`. -/
theorem import_skips_only_empty_records (tn sp : String) (content : List Nat)
    (text : String) (hdec : utf8Decode content = some text)
    (roster : List TeamRosterEntry) (hok : parseRoster text = .ok roster) :
    importTeam true tn sp content =
      ⟨200, some ⟨tn, sp, roster⟩, some roster.length⟩ ∧
    roster.length =
      (((pySplit '\n' text).tail.map csvFields).filter (fun fs => fs ≠ [])).length ∧
    (∀ a b c, pyStrip a = "" → pyStrip b = "" → pyStrip c = "" →
      buildEntry ["name", "number", "size"] [a, b, c] = .ok ⟨"", "", "M"⟩) := by
  refine ⟨?_, parseRoster_length text roster hok, buildEntry_ws⟩
  simp [importTeam, hdec, hok]

/-- Witness for C5 (amended): on `wsCsv` the import succeeds with
exactly one roster entry — matching the one non-blank data row. -/
theorem import_skips_only_empty_records_witness :
    utf8Decode (asciiBytes wsCsv) = some wsCsv ∧
    parseRoster wsCsv = .ok [⟨"", "", "M"⟩] ∧
    importTeam true "T" "cricket" (asciiBytes wsCsv) =
      ⟨200, some ⟨"T", "cricket", [⟨"", "", "M"⟩]⟩, some 1⟩ := by
  refine ⟨by decide, by decide, ?_⟩
  exact (import_skips_only_empty_records "T" "cricket" (asciiBytes wsCsv) wsCsv
    (by decide) [⟨"", "", "M"⟩] (by decide)).1

/-! ## C6 -/

/-- A well-formed roster upload with one valid data row. -/
def goodCsv : String := "name,number,size\nAmi,7,M"

/-- C6: a storage failure during `POST /api/team/import` is reported as a
400 "Invalid CSV" client error — not the claimed 500 — because the
`create_document` call sits inside the CSV parsing `try` block; the other
persistence endpoints (`POST /api/templates`, `POST /api/checkout`) do
surface the same failure as a 500. -/
theorem import_storage_failure_gives_400 :
    importTeam false "T" "cricket" (asciiBytes goodCsv) = ⟨400, none, none⟩ ∧
    createTemplateStatus false = 500 ∧
    (checkout sampleTiers sampleReq false).status = 500 := by
  refine ⟨by decide, rfl, ?_⟩
  simp only [checkout, checkoutWith, mkJerseyOrder]
  have hq : ¬ (sampleReq.quantity < 1) := by decide
  have h15 : sampleReq.quantity = (15 : ℤ) := rfl
  rw [if_neg hq, h15, sample_amount,
    if_neg (by norm_num : ¬ (13485 : ℚ) < 0)]
  rfl

/-! ## C7 -/

/-- A checkout request with out-of-range quantity 0. -/
def zeroQtyReq : CheckoutRequest := { sampleReq with quantity := 0 }

/-- C7: a checkout whose quantity is below 1 is rejected with a 500 —
not the claimed 400 — because the bare `int` request field admits it and
the `JerseyOrder` `ge=1` constraint then raises inside the handler's
catch-all; no order or payment intent is persisted (quantity -3 behaves
the same). -/
theorem checkout_low_quantity_gives_500 :
    checkout sampleTiers zeroQtyReq true = ⟨500, none, none, none⟩ ∧
    checkout sampleTiers { zeroQtyReq with quantity := -3 } true =
      ⟨500, none, none, none⟩ := by
  exact ⟨by decide, by decide⟩

/-! ## C8 -/

/-- C8: a roster upload whose bytes are not valid UTF-8 fails the whole
roster import with a 400 client error and persists no team record,
regardless of store health. -/
theorem import_invalid_utf8_rejected (storeOk : Bool) (tn sp : String)
    (content : List Nat) (h : utf8Decode content = none) :
    importTeam storeOk tn sp content = ⟨400, none, none⟩ := by
  simp [importTeam, h]

/-- Witness for C8: the lone byte 0xFF is not valid UTF-8 and the import
of it returns 400 with nothing persisted. -/
theorem import_invalid_utf8_rejected_witness :
    utf8Decode [0xFF] = none ∧
    importTeam true "T" "cricket" [0xFF] = ⟨400, none, none⟩ := by
  refine ⟨by decide, ?_⟩
  exact import_invalid_utf8_rejected true "T" "cricket" [0xFF] (by decide)

end JerseyKraft
